import Mathlib

/-!
Shallow embedding of the c-link backend (FastAPI + Supabase wrapper).

Source files embedded:
 - src/backend/app/routes/admin.py  (role policy, admin management endpoints)
 - src/backend/app/routes/auth.py   (identity resolution, signup/signin endpoints)

Conventions of the embedding:
 - Python dict user_metadata is reduced to its only consulted field, "role";
   an absent field is modelled as Option.none.
 - A FastAPI dependency runs before the handler body and outside the handler's
   try block, so an HTTPException it raises keeps its status code.
 - Inside each handler body, every statement is wrapped in
   try ... except Exception as e: raise HTTPException(400, str(e))
   (500 in list_users).  fastapi.HTTPException derives from Exception, so an
   HTTPException raised inside the try block is caught by that blanket except
   and re-raised with status 400 (resp. 500).  The models below therefore
   record status 400 for denials raised inside a handler body, and keep the
   error kind as a separate tag for reasoning.
 - Provider (Supabase) interactions are recorded as an explicit list of calls;
   lookups are answered by an environment function String to Option User,
   where none models a provider error on get_user_by_id.
 - admin.py imports only get_supabase_admin_client from db.supabase (line 5);
   the name get_supabase_client used at lines 32 and 180 is undefined there,
   so Python raises NameError, which the blanket excepts convert to 401
   (dependency) resp. 400 (handler body).
-/

namespace CLink

/-- Role enum from app/routes/admin.py lines 14-17 (also auth.py lines 14-17). -/
inductive Role where
  | superadmin
  | admin
  | user
deriving DecidableEq, Repr

/-- The user_metadata dict, reduced to the only field this code reads. -/
structure UserMetadata where
  role : Option Role
deriving DecidableEq, Repr

/-- A provider account record, reduced to the fields this code reads. -/
structure User where
  id : String
  email : String
  user_metadata : UserMetadata
deriving DecidableEq, Repr

/-- The idiom user_metadata.get("role", Role.USER): default role is user when
the metadata has no role field. -/
def metaRole (m : UserMetadata) : Role :=
  m.role.getD Role.user

/-- Python str.lower as used on every email before a provider call, modelled
character-wise (the code only ever feeds it ASCII emails). -/
def strLower (s : String) : String :=
  ⟨s.data.map Char.toLower⟩

/-- Payload of auth.admin.update_user_by_id in update_user (admin.py 172-200):
optional email and password, plus the email_confirm key (modelled as a Bool,
false meaning the key is absent). -/
structure UpdatePayload where
  email : Option String
  password : Option String
  email_confirm : Bool
deriving DecidableEq, Repr

/-- One call to the external provider, as issued by the handlers. -/
inductive ProviderCall where
  | getUserById (id : String)
  | listUsers
  | updateUserRole (id : String) (role : Role)
  | updateUserById (id : String) (payload : UpdatePayload)
  | deleteUser (id : String)
  | createUser (email : String) (password : String) (role : Role) (email_confirm : Bool)
  | selfUpdate (payload : UpdatePayload)
deriving DecidableEq, Repr

/-- Whether a provider call mutates provider state (reads are getUserById and
listUsers; everything else creates, updates or deletes). -/
def ProviderCall.isMutation : ProviderCall → Bool
  | getUserById _ => false
  | listUsers => false
  | _ => true

/-- Why a request failed, kept alongside the observable status code. -/
inductive ErrKind where
  | validation
  | policyDenial
  | authFailure
  | nameError
  | providerError
deriving DecidableEq, Repr

/-- Observable outcome of a request. -/
inductive Outcome where
  | success
  | failure (status : Nat) (kind : ErrKind)
deriving DecidableEq, Repr

/-- Names imported into app/routes/admin.py from db.supabase (admin.py line 5):
only get_supabase_admin_client.  get_supabase_client is not among them. -/
def adminDbImports : List String :=
  ["get_supabase_admin_client"]

/-- Whether a db.supabase name is in scope in the admin module. -/
def adminScopeHas (n : String) : Bool :=
  adminDbImports.contains n

/-- Result of the provider resolving a bearer token (supabase.auth.get_user):
any exception with its detail, a response whose user is None, or a user. -/
inductive TokenResolution where
  | providerError (detail : String)
  | noUser
  | user (u : User)
deriving DecidableEq, Repr

/-- get_current_user of auth.py lines 36-47: any provider exception or a
response without a user raises HTTPException(401, "Invalid authentication
credentials"); note the inner 401 raise at line 43 is itself caught at line 46
and re-raised with the same status and detail. -/
def auth_get_current_user (resolve : TokenResolution) : Except (Nat × String) User :=
  match resolve with
  | .providerError _ => .error (401, "Invalid authentication credentials")
  | .noUser => .error (401, "Invalid authentication credentials")
  | .user u => .ok u

/-- get_current_user of admin.py lines 29-40.  Line 32 calls
get_supabase_client, a name the admin module never imports; when the name is
absent from scope Python raises NameError before the provider is consulted,
and the except at line 39 converts it to HTTPException(401).  The provider
branch is kept so that the unreachability of the success path is a theorem
about scope, not an assumption. -/
def admin_get_current_user (resolve : TokenResolution) : Except (Nat × String) User :=
  if adminScopeHas "get_supabase_client" then
    match resolve with
    | .providerError _ => .error (401, "Invalid authentication credentials")
    | .noUser => .error (401, "Invalid authentication credentials")
    | .user u => .ok u
  else
    .error (401, "Invalid authentication credentials")

/-- An admin-module protected route: run the identity dependency, then the
handler on the resolved user.  An error from the dependency is observable with
its own status (dependencies run outside the handler try block). -/
def full_admin_route (resolve : TokenResolution)
    (handler : User → Outcome × List ProviderCall) : Outcome × List ProviderCall :=
  match admin_get_current_user resolve with
  | .error (s, _) => (Outcome.failure s ErrKind.authFailure, [])
  | .ok u => handler u

/-- GET /auth/me of auth.py lines 193-205: protected only by get_current_user;
on resolution failure the 401 propagates, otherwise the profile is returned. -/
def me_route (resolve : TokenResolution) : Outcome :=
  match auth_get_current_user resolve with
  | .error (s, _) => Outcome.failure s ErrKind.authFailure
  | .ok _ => Outcome.success

/-- Handler body of PUT /users/(user_id)/role, admin.py lines 111-133, given
the already-resolved actor.  Only the requested new role is inspected; the
target's current role is never looked up.  The 403 raised at line 120 sits
inside the try block, so it surfaces as status 400. -/
def update_user_role (current_user : User) (user_id : String) (role : Role) :
    Outcome × List ProviderCall :=
  if role = Role.admin ∨ role = Role.superadmin then
    if metaRole current_user.user_metadata ≠ Role.superadmin then
      (Outcome.failure 400 ErrKind.policyDenial, [])
    else
      (Outcome.success, [ProviderCall.updateUserRole user_id role])
  else
    (Outcome.success, [ProviderCall.updateUserRole user_id role])

/-- get_admin_user dependency (admin.py lines 43-47) composed with a handler:
a 403 raised here is outside the handler try block and keeps its status. -/
def with_admin_user (current_user : User)
    (handler : User → Outcome × List ProviderCall) : Outcome × List ProviderCall :=
  let user_role := metaRole current_user.user_metadata
  if user_role = Role.admin ∨ user_role = Role.superadmin then
    handler current_user
  else
    (Outcome.failure 403 ErrKind.policyDenial, [])

/-- PUT /users/(user_id)/role with its get_admin_user dependency, given the
resolved actor. -/
def update_user_role_route (current_user : User) (user_id : String) (role : Role) :
    Outcome × List ProviderCall :=
  with_admin_user current_user (fun cu => update_user_role cu user_id role)

/-- Handler body of DELETE /users/(user_id), admin.py lines 137-156, given the
resolved actor.  The target's current role is looked up first; the 403 raised
at line 150 sits inside the try block, so it surfaces as status 400. -/
def delete_user (lookup : String → Option User) (current_user : User)
    (user_id : String) : Outcome × List ProviderCall :=
  match lookup user_id with
  | none => (Outcome.failure 400 ErrKind.providerError, [ProviderCall.getUserById user_id])
  | some target =>
    let target_role := metaRole target.user_metadata
    if target_role = Role.admin ∨ target_role = Role.superadmin then
      if metaRole current_user.user_metadata ≠ Role.superadmin then
        (Outcome.failure 400 ErrKind.policyDenial, [ProviderCall.getUserById user_id])
      else
        (Outcome.success,
          [ProviderCall.getUserById user_id, ProviderCall.deleteUser user_id])
    else
      (Outcome.success,
        [ProviderCall.getUserById user_id, ProviderCall.deleteUser user_id])

/-- DELETE /users/(user_id) with its get_admin_user dependency, given the
resolved actor. -/
def delete_user_route (lookup : String → Option User) (current_user : User)
    (user_id : String) : Outcome × List ProviderCall :=
  with_admin_user current_user (fun cu => delete_user lookup cu user_id)

/-- GET /users, admin.py lines 86-107, with its get_admin_user dependency. -/
def list_users_route (current_user : User) : Outcome × List ProviderCall :=
  with_admin_user current_user (fun _ => (Outcome.success, [ProviderCall.listUsers]))

/-- Body of UserUpdate (admin.py lines 24-26): optional email and password. -/
structure UserUpdate where
  email : Option String
  password : Option String
deriving DecidableEq, Repr

/-- The update_payload dict built at admin.py lines 172-176: email is
lowercased, password passed through, email_confirm not yet set. -/
def update_payload (d : UserUpdate) : UpdatePayload :=
  { email := d.email.map strLower
    password := d.password
    email_confirm := false }

/-- Handler body of PUT /users/(user_id)/update, admin.py lines 160-209, given
the resolved actor (its only dependency is get_current_user).  Branch order as
in the source: validation first, then the self-service identity test at line
179, then the target lookup and the admin-versus-admin check, then the
superadmin email_confirm enrichment.  The self branch calls
get_supabase_client (line 180), undefined in this module, so it raises
NameError, surfaced as 400 by the blanket except. -/
def update_user (lookup : String → Option User) (current_user : User)
    (user_id : String) (update_data : UserUpdate) : Outcome × List ProviderCall :=
  if update_data.email = none ∧ update_data.password = none then
    (Outcome.failure 400 ErrKind.validation, [])
  else
    let current_user_role := metaRole current_user.user_metadata
    let payload := update_payload update_data
    if user_id = current_user.id then
      if adminScopeHas "get_supabase_client" then
        (Outcome.success, [ProviderCall.selfUpdate payload])
      else
        (Outcome.failure 400 ErrKind.nameError, [])
    else
      match lookup user_id with
      | none => (Outcome.failure 400 ErrKind.providerError, [ProviderCall.getUserById user_id])
      | some target =>
        let target_role := metaRole target.user_metadata
        if current_user_role = Role.admin ∧
            (target_role = Role.admin ∨ target_role = Role.superadmin) then
          (Outcome.failure 400 ErrKind.policyDenial, [ProviderCall.getUserById user_id])
        else
          let payload :=
            if current_user_role = Role.superadmin ∧ update_data.email ≠ none then
              { payload with email_confirm := true }
            else payload
          (Outcome.success,
            [ProviderCall.getUserById user_id,
             ProviderCall.updateUserById user_id payload])

/-- POST /signup/admin, admin.py lines 58-82, with its get_superadmin_user
dependency (lines 50-54), given the resolved actor.  The created account gets
role admin, lowercased email, and email_confirm true. -/
def signup_admin_route (current_user : User) (email password : String) :
    Outcome × List ProviderCall :=
  if metaRole current_user.user_metadata ≠ Role.superadmin then
    (Outcome.failure 403 ErrKind.policyDenial, [])
  else
    (Outcome.success,
      [ProviderCall.createUser (strLower email) password Role.admin true])

/-- Whether an outcome is a policy denial (an authorization check rejected the
request), whatever status code it surfaced with. -/
def Outcome.isPolicyDenial : Outcome → Bool
  | .failure _ .policyDenial => true
  | _ => false

/-- A request result is denial-mutation-free when either it is not a policy
denial, or every provider call it issued is read-only. -/
def denialMutationFree (res : Outcome × List ProviderCall) : Bool :=
  !res.1.isPolicyDenial || res.2.all (fun c => !c.isMutation)

/-- Whether a provider call, if it is an admin update of another account,
carries exactly the given email_confirm flag; other calls pass vacuously. -/
def ProviderCall.confirmFlagIs (b : Bool) : ProviderCall → Bool
  | .updateUserById _ p => p.email_confirm == b
  | _ => true

/-- Fields of the supabase.auth.sign_up call issued by POST /auth/signup/user,
auth.py lines 56-64: lowercased email, password, and role user in the options
data. -/
structure SignUpRequest where
  email : String
  password : String
  role : Role
deriving DecidableEq, Repr

/-- Request built by signup_user (auth.py lines 56-64). -/
def signup_user_request (email password : String) : SignUpRequest :=
  { email := strLower email, password := password, role := Role.user }

/-- Fields of the supabase.auth.sign_in_with_password call issued by POST
/auth/signin, auth.py lines 86-91. -/
structure SignInRequest where
  email : String
  password : String
deriving DecidableEq, Repr

/-- Request built by signin (auth.py lines 86-91): lowercased email. -/
def signin_request (email password : String) : SignInRequest :=
  { email := strLower email, password := password }

/-- Fields of the supabase.auth.sign_in_with_otp call issued by POST
/auth/signin/magic-link, auth.py lines 126-133 (redirect option omitted: it
does not depend on the email). -/
structure MagicLinkRequest where
  email : String
deriving DecidableEq, Repr

/-- Request built by signin_magic_link (auth.py lines 126-133). -/
def magic_link_request (email : String) : MagicLinkRequest :=
  { email := strLower email }

/-- Fields of the supabase.auth.verify_otp call issued by POST
/auth/verify-otp, auth.py lines 144-150. -/
structure VerifyOtpRequest where
  email : String
  token : String
  otp_type : String
deriving DecidableEq, Repr

/-- Request built by verify_otp (auth.py lines 144-150): lowercased email,
token passed through, type "email". -/
def verify_otp_request (email token : String) : VerifyOtpRequest :=
  { email := strLower email, token := token, otp_type := "email" }

/-- Email argument of the supabase.auth.reset_password_for_email call issued
by POST /auth/forgot-password, auth.py lines 215-221. -/
def forgot_password_request (email : String) : String :=
  strLower email

/-! Concrete records used in counterexamples and witnesses. -/

/-- A resolved actor whose metadata role is admin. -/
def actorAdmin : User :=
  { id := "a1", email := "a1@example.com", user_metadata := { role := some Role.admin } }

/-- A resolved actor whose metadata role is superadmin. -/
def actorSuper : User :=
  { id := "s1", email := "s1@example.com", user_metadata := { role := some Role.superadmin } }

/-- A resolved actor with no role field in its metadata. -/
def actorNoRole : User :=
  { id := "n1", email := "n1@example.com", user_metadata := { role := none } }

/-- A target account whose current role is admin. -/
def targetAdmin : User :=
  { id := "t1", email := "t1@example.com", user_metadata := { role := some Role.admin } }

/-- A target account whose current role is user. -/
def targetUser : User :=
  { id := "t2", email := "t2@example.com", user_metadata := { role := some Role.user } }

/-- Provider environment holding targetAdmin and targetUser. -/
def lookupEnv : String → Option User := fun i =>
  if i = "t1" then some targetAdmin
  else if i = "t2" then some targetUser
  else none

/-- C1 counterexample: the claim says an admin actor setting an admin-tier
target's role to user is denied with Forbidden and no provider update call is
made.  In the code, update_user_role inspects only the requested new role and
never looks the target up, so the very same request (admin actor, any target
id, new role user) succeeds and issues the provider update; in particular the
decision cannot depend on the target's current role, which is never read. -/
theorem c1_counterexample :
    update_user_role_route actorAdmin "t1" Role.user
      = (Outcome.success, [ProviderCall.updateUserRole "t1" Role.user]) := by
  decide

/-- C1 amended: for every admin actor, a role update setting any target's role
to user succeeds and issues the provider update call, independent of the
target's current role (update_user_role takes no target lookup because the
source never reads the target); the denial in update_user_role depends only on
the requested new role. -/
theorem c1_amended (cu : User) (uid : String)
    (h : metaRole cu.user_metadata = Role.admin) :
    update_user_role_route cu uid Role.user
      = (Outcome.success, [ProviderCall.updateUserRole uid Role.user]) := by
  simp [update_user_role_route, with_admin_user, update_user_role, h]

/-- C1 amended witness: instance at the concrete admin actor. -/
theorem c1_amended_witness :
    update_user_role_route actorAdmin "t1" Role.user
      = (Outcome.success, [ProviderCall.updateUserRole "t1" Role.user]) :=
  c1_amended actorAdmin "t1" (by decide)

/-- C2 code behavior at the failing input: an admin actor deleting an admin
target.  The policy denial fires, but the HTTPException(403) raised at
admin.py line 150 sits inside the handler's try block and the blanket except
at line 155 re-raises it with status 400, so the observable outcome is 400,
not the 403 the spec requires as the distinct Forbidden outcome. -/
theorem c2_code_behavior :
    delete_user_route lookupEnv actorAdmin "t1"
      = (Outcome.failure 400 ErrKind.policyDenial, [ProviderCall.getUserById "t1"]) := by
  decide

/-- C3: in the admin module the identity dependency's success branch is
unreachable.  get_supabase_client is not among the names imported from
db.supabase, so for every possible provider resolution of the token --
including a perfectly valid one resolving to a user -- admin.py's
get_current_user raises and the request is rejected with 401; consequently
every protected admin route rejects every request with 401 before its handler
runs, issuing no provider call. -/
theorem c3_admin_auth_unreachable :
    adminScopeHas "get_supabase_client" = false ∧
    (∀ resolve : TokenResolution,
      admin_get_current_user resolve
        = Except.error (401, "Invalid authentication credentials")) ∧
    (∀ (resolve : TokenResolution) (handler : User → Outcome × List ProviderCall),
      full_admin_route resolve handler = (Outcome.failure 401 ErrKind.authFailure, [])) := by
  refine ⟨by decide, fun resolve => ?_, fun resolve handler => ?_⟩ <;>
    simp [admin_get_current_user, full_admin_route, adminScopeHas, adminDbImports]

/-- C4: for every resolved actor whose role is not superadmin, a role update
requesting admin or superadmin is denied by a policy check and no provider
call at all is issued; since update_user_role never reads the target, this
holds for every possible current role of the target.  A user-tier actor is
stopped by the get_admin_user dependency with 403; an admin actor is stopped
by the in-handler check at admin.py lines 117-120, whose 403 surfaces as 400
through the blanket except. -/
theorem c4_role_escalation_denied (cu : User) (uid : String) (r : Role)
    (hcu : metaRole cu.user_metadata ≠ Role.superadmin)
    (hr : r = Role.admin ∨ r = Role.superadmin) :
    (∃ s, (update_user_role_route cu uid r).1 = Outcome.failure s ErrKind.policyDenial) ∧
    (update_user_role_route cu uid r).2 = [] := by
  unfold update_user_role_route with_admin_user update_user_role
  rcases hmeta : metaRole cu.user_metadata with _ | _ | _ <;> simp_all

/-- C4 witness: admin actor requesting role admin for target t2 is denied with
no provider call. -/
theorem c4_witness :
    (∃ s, (update_user_role_route actorAdmin "t2" Role.admin).1
        = Outcome.failure s ErrKind.policyDenial) ∧
    (update_user_role_route actorAdmin "t2" Role.admin).2 = [] :=
  c4_role_escalation_denied actorAdmin "t2" Role.admin (by decide) (Or.inl rfl)

/-- C5 code behavior at the failing input: an actor updating their own account
(target id equal to the actor id) with a new email.  The self-service branch
is selected at admin.py line 179, before any target lookup, but its body calls
get_supabase_client (line 180), a name the module never imports, so a
NameError is raised and the blanket except surfaces 400: the self-update is
never allowed to reach the provider. -/
theorem c5_code_behavior :
    update_user lookupEnv actorAdmin "a1"
        { email := some "new@example.com", password := none }
      = (Outcome.failure 400 ErrKind.nameError, []) := by
  decide

/-- C6: an account whose metadata has no role field is treated as role user:
the defaulting idiom metaRole yields user, and such a resolved actor calling
the list-accounts route is denied by the get_admin_user dependency with a
genuine 403 (the dependency runs outside the handler try block) and no
provider call. -/
theorem c6_default_role_user (cu : User) (h : cu.user_metadata.role = none) :
    metaRole cu.user_metadata = Role.user ∧
    list_users_route cu = (Outcome.failure 403 ErrKind.policyDenial, []) := by
  have hm : metaRole cu.user_metadata = Role.user := by
    simp [metaRole, h]
  exact ⟨hm, by simp [list_users_route, with_admin_user, hm]⟩

/-- C6 witness: the concrete metadata-less actor. -/
theorem c6_witness :
    metaRole actorNoRole.user_metadata = Role.user ∧
    list_users_route actorNoRole = (Outcome.failure 403 ErrKind.policyDenial, []) :=
  c6_default_role_user actorNoRole rfl

/-- C7: every identity-resolution failure collapses to the single outcome 401
with the same client-facing detail, on both modules' resolvers, whatever the
underlying provider detail was (expired, malformed, revoked, empty token all
arrive as some providerError detail or as a response with no user); the /me
protected route propagates that 401 unchanged. -/
theorem c7_auth_failures_collapse :
    (∀ d, auth_get_current_user (TokenResolution.providerError d)
        = Except.error (401, "Invalid authentication credentials")) ∧
    auth_get_current_user TokenResolution.noUser
        = Except.error (401, "Invalid authentication credentials") ∧
    (∀ d, me_route (TokenResolution.providerError d)
        = Outcome.failure 401 ErrKind.authFailure) ∧
    me_route TokenResolution.noUser = Outcome.failure 401 ErrKind.authFailure ∧
    (∀ d, admin_get_current_user (TokenResolution.providerError d)
        = Except.error (401, "Invalid authentication credentials")) ∧
    admin_get_current_user TokenResolution.noUser
        = Except.error (401, "Invalid authentication credentials") := by
  refine ⟨fun d => rfl, rfl, fun d => rfl, rfl, fun d => ?_, ?_⟩ <;>
    simp [admin_get_current_user, adminScopeHas, adminDbImports]

/-- C8: on every modelled route, a policy denial issues no mutating provider
call: at most the read-only target lookup (get_user_by_id) precedes the
denial, and the update, create or delete call is never reached.  Quantified
over every environment, actor, target id, requested role, update body, email
and password. -/
theorem c8_denial_before_mutation (lookup : String → Option User) (cu : User)
    (uid : String) (r : Role) (d : UserUpdate) (e p : String) :
    denialMutationFree (update_user_role_route cu uid r) = true ∧
    denialMutationFree (delete_user_route lookup cu uid) = true ∧
    denialMutationFree (update_user lookup cu uid d) = true ∧
    denialMutationFree (signup_admin_route cu e p) = true ∧
    denialMutationFree (list_users_route cu) = true := by
  refine ⟨?_, ?_, ?_, ?_, ?_⟩
  · unfold denialMutationFree update_user_role_route with_admin_user update_user_role
    dsimp only
    split_ifs <;> simp [Outcome.isPolicyDenial, ProviderCall.isMutation]
  · unfold denialMutationFree delete_user_route with_admin_user delete_user
    rcases hl : lookup uid with _ | target <;> simp only [hl] <;> split_ifs <;>
      simp [Outcome.isPolicyDenial, ProviderCall.isMutation]
  · unfold denialMutationFree update_user
    rcases hl : lookup uid with _ | target <;> simp only [hl] <;> split_ifs <;>
      simp [Outcome.isPolicyDenial, ProviderCall.isMutation]
  · unfold denialMutationFree signup_admin_route
    split_ifs <;> simp [Outcome.isPolicyDenial, ProviderCall.isMutation]
  · unfold denialMutationFree list_users_route with_admin_user
    dsimp only
    split_ifs <;> simp [Outcome.isPolicyDenial, ProviderCall.isMutation]

/-- C9: in the other-account branch of update_user, the email_confirm flag is
added exactly for superadmin actors: every admin update call issued on behalf
of a superadmin actor whose request changes the email carries
email_confirm true, every admin update call issued on behalf of an admin
actor carries email_confirm false, and for a superadmin actor updating
another, existing account with a new email the handler succeeds and sends the
payload with email_confirm true (admin.py lines 190-200). -/
theorem c9_email_confirm_superadmin_only (lookup : String → Option User)
    (cu target : User) (uid : String) (d : UserUpdate) :
    (metaRole cu.user_metadata = Role.superadmin → d.email ≠ none →
      (update_user lookup cu uid d).2.all (ProviderCall.confirmFlagIs true) = true) ∧
    (metaRole cu.user_metadata = Role.admin →
      (update_user lookup cu uid d).2.all (ProviderCall.confirmFlagIs false) = true) ∧
    (metaRole cu.user_metadata = Role.superadmin → d.email ≠ none →
      uid ≠ cu.id → lookup uid = some target →
      update_user lookup cu uid d
        = (Outcome.success,
           [ProviderCall.getUserById uid,
            ProviderCall.updateUserById uid
              { email := d.email.map strLower
                password := d.password
                email_confirm := true }])) := by
  refine ⟨fun hsa he => ?_, fun had => ?_, fun hsa he hne hl => ?_⟩
  · unfold update_user
    rcases hl : lookup uid with _ | t <;> simp only [hl] <;> split_ifs <;>
      simp_all [ProviderCall.confirmFlagIs, update_payload]
  · unfold update_user
    rcases hl : lookup uid with _ | t <;> simp only [hl] <;> split_ifs <;>
      simp_all [ProviderCall.confirmFlagIs, update_payload]
  · unfold update_user
    simp only [hl]
    split_ifs <;> simp_all [update_payload]

/-- C9 witness: a superadmin actor updating the existing user-tier account t2
with a new email sends email_confirm true; an admin actor doing the same
sends no email_confirm; the superadmin call list is exactly the lookup
followed by the confirmed update. -/
theorem c9_witness :
    (update_user lookupEnv actorSuper "t2"
        { email := some "n@example.com", password := none }).2.all
      (ProviderCall.confirmFlagIs true) = true ∧
    (update_user lookupEnv actorAdmin "t2"
        { email := some "n@example.com", password := none }).2.all
      (ProviderCall.confirmFlagIs false) = true ∧
    update_user lookupEnv actorSuper "t2"
        { email := some "n@example.com", password := none }
      = (Outcome.success,
         [ProviderCall.getUserById "t2",
          ProviderCall.updateUserById "t2"
            { email := some "n@example.com"
              password := none
              email_confirm := true }]) :=
 by
  refine ⟨?_, ?_, ?_⟩
  · exact (c9_email_confirm_superadmin_only lookupEnv actorSuper targetUser "t2"
      { email := some "n@example.com", password := none }).1 (by decide) (by decide)
  · exact (c9_email_confirm_superadmin_only lookupEnv actorAdmin targetUser "t2"
      { email := some "n@example.com", password := none }).2.1 (by decide)
  · exact ((c9_email_confirm_superadmin_only lookupEnv actorSuper targetUser "t2"
      { email := some "n@example.com", password := none }).2.2
        (by decide) (by decide) (by decide) (by decide)).trans (by decide)

/-- C10: every operation that sends an email to the provider lowercases it
first, so two email inputs with the same lowercase form produce identical
provider requests for user signup, sign-in, magic link, OTP verification,
forgot password, admin signup, and the email-update payload. -/
theorem c10_email_lowercased (e1 e2 p tok : String) (pw : Option String)
    (cu : User) (h : strLower e1 = strLower e2) :
    signup_user_request e1 p = signup_user_request e2 p ∧
    signin_request e1 p = signin_request e2 p ∧
    magic_link_request e1 = magic_link_request e2 ∧
    verify_otp_request e1 tok = verify_otp_request e2 tok ∧
    forgot_password_request e1 = forgot_password_request e2 ∧
    signup_admin_route cu e1 p = signup_admin_route cu e2 p ∧
    update_payload { email := some e1, password := pw }
      = update_payload { email := some e2, password := pw } := by
  refine ⟨?_, ?_, ?_, ?_, ?_, ?_, ?_⟩ <;>
    simp [signup_user_request, signin_request, magic_link_request,
      verify_otp_request, forgot_password_request, signup_admin_route,
      update_payload, h]

/-- C10 witness: two emails differing only in letter case at concrete
operations. -/
theorem c10_witness :
    signup_user_request "Ann@Example.COM" "pw123456"
      = signup_user_request "ann@example.com" "pw123456" ∧
    update_payload { email := some "Ann@Example.COM", password := none }
      = update_payload { email := some "ann@example.com", password := none } :=
  ⟨(c10_email_lowercased "Ann@Example.COM" "ann@example.com" "pw123456" ""
      none actorSuper (by decide)).1,
   (c10_email_lowercased "Ann@Example.COM" "ann@example.com" "pw123456" ""
      none actorSuper (by decide)).2.2.2.2.2.2⟩

end CLink
